import Mathlib

/-!
Verification of the ShadowLend confidential lending protocol.

This file gives a shallow embedding of the confidential circuits
(`encrypted-ixs/src/lib.rs`) and the on-chain callback handlers
(`programs/shadowlend_program/src/instructions/*/callback.rs`), and proves
the specified properties about them.

Modelling conventions:
- Unsigned 128-bit magnitudes (`u128`) are modelled as `Nat`.  Additions,
  multiplications and (floor) divisions are modelled exactly over `Nat`
  (all values of interest are magnitudes far below the type bound).
  Subtraction, whose underflow behaviour the specification singles out, is
  modelled with the two's-complement wrap-around semantics of release-mode
  `u128` subtraction: `u128_sub a b = (a + (2^128 - b)) % 2^128`, which for
  in-range operands wraps exactly when `b > a`.
- `as u128` casts of boolean flags become `b2n`; boolean comparisons in the
  circuits become `decide` of the corresponding proposition.
- Fallible callback handlers return `Except ErrorCode`; an `Except.error`
  result corresponds to the whole transaction aborting with that error and
  no account mutation being committed.
- SPL token movements are modelled as `TransferRec` values; a CPI transfer
  fails when the source balance is insufficient.
- The keccak256 hash used by the callback handlers is external code; the
  handlers are parameterised over it (`keccak`).  The XOR-fold commitment
  of the deposit/withdraw callbacks is implemented concretely.
-/

namespace ShadowLend

/-- Modulus of the `u128` type used throughout the circuits. -/
def U128 : Nat := 2 ^ 128

/-- Modulus of the `u64` type used for public token amounts. -/
def U64 : Nat := 2 ^ 64

/-- Wrap-around (release-mode) `u128` subtraction: for operands below `2^128`
this agrees with exact subtraction when `b ≤ a` and wraps otherwise. -/
def u128_sub (a b : Nat) : Nat := (a + (U128 - b)) % U128

/-- Numeric value of a boolean flag, mirroring `flag as u128` in the circuits. -/
def b2n (b : Bool) : Nat := if b then 1 else 0

/-- Plaintext user state operated on inside the MXE
(`UserState` in `encrypted-ixs/src/lib.rs`). -/
structure UserState where
  deposit_amount : Nat
  borrow_amount : Nat
  accrued_interest : Nat
  last_interest_calc_ts : Int
deriving DecidableEq, Repr

/-- Plaintext pool aggregate state operated on inside the MXE
(`PoolState` in `encrypted-ixs/src/lib.rs`). -/
structure PoolState where
  total_deposits : Nat
  total_borrows : Nat
  accumulated_interest : Nat
  available_borrow_liquidity : Nat
deriving DecidableEq, Repr

/-- Output of the confidential deposit circuit. -/
structure ConfidentialDepositOutput where
  new_user_state : UserState
  success : Bool
deriving DecidableEq, Repr

/-- Output of the confidential borrow circuit. -/
structure ConfidentialBorrowOutput where
  new_user_state : UserState
  approved : Bool
deriving DecidableEq, Repr

/-- Output of the confidential withdraw circuit. -/
structure ConfidentialWithdrawOutput where
  new_user_state : UserState
  approved : Bool
deriving DecidableEq, Repr

/-- Output of the confidential repay circuit. -/
structure ConfidentialRepayOutput where
  new_user_state : UserState
  success : Bool
deriving DecidableEq, Repr

/-- Output of the confidential liquidate circuit. -/
structure ConfidentialLiquidateOutput where
  new_user_state : UserState
  liquidated : Bool
deriving DecidableEq, Repr

/-- Output of the confidential interest circuit. -/
structure ConfidentialInterestOutput where
  new_user_state : UserState
  success : Bool
deriving DecidableEq, Repr

/-- Confidential deposit circuit (`compute_confidential_deposit`). -/
def compute_confidential_deposit (amount : Nat) (current_user_state : UserState)
    (current_pool_state : PoolState) (max_creditable : Nat) :
    ConfidentialDepositOutput × PoolState :=
  let valid_amount : Bool := decide (amount ≤ max_creditable)
  let effective_credit : Nat := b2n valid_amount * amount
  let user_state :=
    { current_user_state with
        deposit_amount := current_user_state.deposit_amount + effective_credit }
  let pool_state :=
    { current_pool_state with
        total_deposits := current_pool_state.total_deposits + effective_credit }
  ({ new_user_state := user_state, success := valid_amount }, pool_state)

/-- Confidential borrow circuit (`compute_confidential_borrow`). -/
def compute_confidential_borrow (borrow_amount : Nat) (current_user_state : UserState)
    (current_pool_state : PoolState)
    (collateral_price borrow_price ltv_bps : Nat) :
    ConfidentialBorrowOutput × PoolState :=
  let user_state := current_user_state
  let pool_state := current_pool_state
  let proposed_borrow := user_state.borrow_amount + borrow_amount
  let collateral_value := user_state.deposit_amount * collateral_price
  let collateral_with_ltv := collateral_value * ltv_bps / 10000
  let borrow_value := proposed_borrow * borrow_price
  let approved : Bool := decide (borrow_value ≤ collateral_with_ltv)
  let has_liquidity : Bool :=
    decide (borrow_amount ≤ pool_state.available_borrow_liquidity)
  let final_approved := approved && has_liquidity
  let update_factor := b2n final_approved
  let borrow_delta := update_factor * borrow_amount
  let user_state' :=
    { user_state with borrow_amount := user_state.borrow_amount + borrow_delta }
  let pool_state' :=
    { pool_state with
        total_borrows := pool_state.total_borrows + borrow_delta,
        available_borrow_liquidity :=
          u128_sub pool_state.available_borrow_liquidity borrow_delta }
  ({ new_user_state := user_state', approved := final_approved }, pool_state')

/-- Confidential withdraw circuit (`compute_confidential_withdraw`). -/
def compute_confidential_withdraw (withdraw_amount : Nat)
    (current_user_state : UserState) (current_pool_state : PoolState)
    (collateral_price borrow_price ltv_bps : Nat) :
    ConfidentialWithdrawOutput × PoolState :=
  let user_state := current_user_state
  let pool_state := current_pool_state
  let actual_withdraw := min withdraw_amount user_state.deposit_amount
  let new_deposit := u128_sub user_state.deposit_amount actual_withdraw
  let total_borrow := user_state.borrow_amount + user_state.accrued_interest
  let collateral_value := new_deposit * collateral_price
  let collateral_with_ltv := collateral_value * ltv_bps / 10000
  let borrow_value := total_borrow * borrow_price
  let no_borrow : Bool := decide (total_borrow = 0)
  let hf_ok : Bool := decide (borrow_value ≤ collateral_with_ltv)
  let approved := no_borrow || hf_ok
  let update_factor := b2n approved
  let withdraw_delta := update_factor * actual_withdraw
  let user_state' :=
    { user_state with
        deposit_amount := u128_sub user_state.deposit_amount withdraw_delta }
  let pool_state' :=
    { pool_state with
        total_deposits := u128_sub pool_state.total_deposits withdraw_delta }
  ({ new_user_state := user_state', approved := approved }, pool_state')

/-- Confidential repay circuit (`compute_confidential_repay`). -/
def compute_confidential_repay (repay_amount : Nat)
    (current_user_state : UserState) (current_pool_state : PoolState) :
    ConfidentialRepayOutput × PoolState :=
  let user_state := current_user_state
  let pool_state := current_pool_state
  let repay_u128 := repay_amount
  let total_debt := user_state.borrow_amount + user_state.accrued_interest
  let actual_repay := min repay_u128 total_debt
  let interest_payment := min actual_repay user_state.accrued_interest
  let new_interest := u128_sub user_state.accrued_interest interest_payment
  let principal_payment := actual_repay - interest_payment
  let new_borrow :=
    u128_sub user_state.borrow_amount (min principal_payment user_state.borrow_amount)
  let user_state' :=
    { user_state with borrow_amount := new_borrow, accrued_interest := new_interest }
  let pool_state' :=
    { pool_state with
        total_borrows :=
          u128_sub pool_state.total_borrows (min principal_payment pool_state.total_borrows),
        available_borrow_liquidity :=
          pool_state.available_borrow_liquidity + actual_repay,
        accumulated_interest :=
          pool_state.accumulated_interest + interest_payment }
  let success : Bool := decide (0 < actual_repay)
  ({ new_user_state := user_state', success := success }, pool_state')

/-- Collateral seized by the confidential liquidate circuit: repay value
converted at the collateral price, scaled by the bonus, capped at the
deposit.  This mirrors the `seized` local of `compute_confidential_liquidate`. -/
def liquidate_seized (repay_amount : Nat) (user_state : UserState)
    (collateral_price borrow_price liquidation_threshold liquidation_bonus : Nat) :
    Nat :=
  let repay_u128 := repay_amount
  let total_borrow := user_state.borrow_amount + user_state.accrued_interest
  let collateral_value := user_state.deposit_amount * collateral_price
  let collateral_with_threshold := collateral_value * liquidation_threshold
  let borrow_value := total_borrow * borrow_price * 10000
  let has_borrow : Bool := decide (0 < total_borrow)
  let under_collateralized : Bool := decide (collateral_with_threshold < borrow_value)
  let is_liquidatable := has_borrow && under_collateralized
  let proceed := b2n is_liquidatable
  let actual_repay := min (proceed * repay_u128) total_borrow
  let repay_value_calc := actual_repay * borrow_price
  let collateral_amount := repay_value_calc / max collateral_price 1
  let with_bonus := collateral_amount * (10000 + liquidation_bonus) / 10000
  min with_bonus user_state.deposit_amount

/-- Confidential liquidate circuit (`compute_confidential_liquidate`). -/
def compute_confidential_liquidate (repay_amount : Nat)
    (current_user_state : UserState) (current_pool_state : PoolState)
    (collateral_price borrow_price liquidation_threshold liquidation_bonus : Nat) :
    ConfidentialLiquidateOutput × PoolState :=
  let user_state := current_user_state
  let pool_state := current_pool_state
  let repay_u128 := repay_amount
  let total_borrow := user_state.borrow_amount + user_state.accrued_interest
  let collateral_value := user_state.deposit_amount * collateral_price
  let collateral_with_threshold := collateral_value * liquidation_threshold
  let borrow_value := total_borrow * borrow_price * 10000
  let has_borrow : Bool := decide (0 < total_borrow)
  let under_collateralized : Bool := decide (collateral_with_threshold < borrow_value)
  let is_liquidatable := has_borrow && under_collateralized
  let proceed := b2n is_liquidatable
  let actual_repay := min (proceed * repay_u128) total_borrow
  let seized :=
    liquidate_seized repay_amount user_state
      collateral_price borrow_price liquidation_threshold liquidation_bonus
  let deposit_after := u128_sub user_state.deposit_amount seized
  let interest_payment := min actual_repay user_state.accrued_interest
  let interest_after := u128_sub user_state.accrued_interest interest_payment
  let principal_payment := actual_repay - interest_payment
  let borrow_after :=
    u128_sub user_state.borrow_amount (min principal_payment user_state.borrow_amount)
  let user_state' :=
    { user_state with
        deposit_amount := deposit_after,
        accrued_interest := interest_after,
        borrow_amount := borrow_after }
  let pool_state' :=
    { pool_state with
        total_deposits := u128_sub pool_state.total_deposits seized,
        total_borrows :=
          u128_sub pool_state.total_borrows (min principal_payment pool_state.total_borrows),
        accumulated_interest :=
          pool_state.accumulated_interest + interest_payment }
  ({ new_user_state := user_state', liquidated := is_liquidatable }, pool_state')

/-- Confidential interest-accrual circuit (`compute_confidential_interest`). -/
def compute_confidential_interest (current_user_state : UserState)
    (current_pool_state : PoolState) (current_ts : Int) (borrow_rate_bps : Nat) :
    ConfidentialInterestOutput × PoolState :=
  let user_state := current_user_state
  let pool_state := current_pool_state
  let seconds_per_year : Nat := 31536000
  let last_ts := user_state.last_interest_calc_ts
  let diff : Int := current_ts - last_ts
  let time_elapsed : Nat := (max diff 0).toNat
  let borrow := user_state.borrow_amount
  let rate := borrow_rate_bps
  let interest := borrow * rate * time_elapsed / (10000 * seconds_per_year)
  let user_state' :=
    { user_state with
        accrued_interest := user_state.accrued_interest + interest,
        last_interest_calc_ts := current_ts }
  let pool_state' :=
    { pool_state with
        accumulated_interest := pool_state.accumulated_interest + interest }
  ({ new_user_state := user_state', success := true }, pool_state')

/-! Callback layer: on-chain accounts, payloads and the callback handlers. -/

/-- Token accounts involved in callback CPI transfers. -/
inductive Acct
  | userTokenAccount
  | collateralVault
  | borrowVault
  | userBorrowAccount
  | liquidatorCollateralAccount
  | liquidatorBorrowAccount
deriving DecidableEq, Repr

/-- One SPL token transfer performed by a callback. -/
structure TransferRec where
  source : Acct
  dest : Acct
  amount : Nat
deriving DecidableEq, Repr

/-- Error codes surfaced by the callback handlers (`error.rs`); a
`TokenTransferFailed` stands for a failed SPL transfer CPI. -/
inductive ErrorCode
  | AbortedComputation
  | InvalidComputationOutput
  | InvalidDepositAmount
  | InvalidBorrowAmount
  | InvalidWithdrawAmount
  | InsufficientLiquidity
  | WithdrawRejected
  | BorrowRejected
  | MathOverflow
  | TokenTransferFailed
deriving DecidableEq, Repr

/-- The mutable fields of the `UserObligation` account touched by the
callback handlers.  `encrypted_state_blob` is kept flattened to bytes. -/
structure UserObligation where
  state_nonce : Nat
  encrypted_state_blob : List Nat
  state_commitment : List Nat
  total_funded : Nat
  total_claimed : Nat
  last_update_ts : Int
deriving DecidableEq, Repr

/-- The mutable fields of the `Pool` account touched by the callback
handlers. -/
structure PoolAccount where
  encrypted_pool_state : List Nat
  pool_state_commitment : List Nat
  pool_state_initialized : Bool
  last_update_ts : Int
deriving DecidableEq, Repr

/-- A verified computation output as decoded by a callback: the user-side
and pool-side ciphertext vectors (each ciphertext one `[u8; 32]` block). -/
structure CallbackPayload where
  user_ciphertexts : List (List Nat)
  pool_ciphertexts : List (List Nat)
deriving DecidableEq, Repr

/-- Little-endian `u64` decoding of the first 8 bytes of a ciphertext
(`u64::from_le_bytes(ct[0..8])`). -/
def u64_from_le_bytes (bytes : List Nat) : Nat :=
  (bytes.take 8).enum.foldl (fun acc ib => acc + ib.2 * 256 ^ ib.1) 0

/-- The 32-byte XOR-fold commitment of the deposit and withdraw callbacks:
`commitment[i % 32] ^= byte` over the stored blob. -/
def xorFoldCommitment (bytes : List Nat) : List Nat :=
  bytes.enum.foldl
    (fun acc ib => acc.set (ib.1 % 32) (Nat.xor (acc.getD (ib.1 % 32) 0) ib.2))
    (List.replicate 32 0)

/-- Flattening of the first four ciphertext blocks into the stored blob. -/
def flattenCiphertexts (cts : List (List Nat)) : List Nat :=
  cts.foldr (· ++ ·) []

/-- Deposit callback (`deposit_callback_handler`): requires the revealed
success flag, transfers the revealed amount from the user to the collateral
vault and stores the new ciphertext with an XOR-fold commitment. -/
def deposit_callback_handler (ob : UserObligation) (pool : PoolAccount)
    (payload : CallbackPayload) (user_token_amount : Nat) (now : Int) :
    Except ErrorCode (UserObligation × PoolAccount × List TransferRec) :=
  if payload.user_ciphertexts.length = 0 then .error .InvalidComputationOutput
  else if (payload.user_ciphertexts.getD 0 []).getD 0 0 = 0 then
    .error .InvalidDepositAmount
  else
    let deposit_amount :=
      u64_from_le_bytes
        (payload.user_ciphertexts.getD (payload.user_ciphertexts.length - 1) [])
    if deposit_amount = 0 then .error .InvalidDepositAmount
    else if user_token_amount < deposit_amount then .error .TokenTransferFailed
    else if U128 ≤ ob.state_nonce + 1 then .error .MathOverflow
    else
      let blob := flattenCiphertexts (payload.user_ciphertexts.take 4)
      if U64 ≤ ob.total_funded + deposit_amount then .error .MathOverflow
      else
        .ok
          ({ ob with
              state_nonce := ob.state_nonce + 1,
              encrypted_state_blob := blob,
              state_commitment := xorFoldCommitment blob,
              total_funded := ob.total_funded + deposit_amount,
              last_update_ts := now },
            { pool with last_update_ts := now },
            [⟨Acct.userTokenAccount, Acct.collateralVault, deposit_amount⟩])

/-- Withdraw callback (`withdraw_callback_handler`): requires the revealed
approval flag, checks vault liquidity, transfers the revealed amount from
the collateral vault to the user and stores the new ciphertext with an
XOR-fold commitment. -/
def withdraw_callback_handler (ob : UserObligation) (pool : PoolAccount)
    (payload : CallbackPayload) (collateral_vault_amount : Nat) (now : Int) :
    Except ErrorCode (UserObligation × PoolAccount × List TransferRec) :=
  if payload.user_ciphertexts.length = 0 then .error .InvalidComputationOutput
  else if (payload.user_ciphertexts.getD 0 []).getD 0 0 = 0 then
    .error .WithdrawRejected
  else
    let withdraw_amount :=
      u64_from_le_bytes
        (payload.user_ciphertexts.getD (payload.user_ciphertexts.length - 1) [])
    if withdraw_amount = 0 then .error .InvalidWithdrawAmount
    else if collateral_vault_amount < withdraw_amount then
      .error .InsufficientLiquidity
    else if U128 ≤ ob.state_nonce + 1 then .error .MathOverflow
    else
      let blob := flattenCiphertexts (payload.user_ciphertexts.take 4)
      if U64 ≤ ob.total_claimed + withdraw_amount then .error .MathOverflow
      else
        .ok
          ({ ob with
              state_nonce := ob.state_nonce + 1,
              encrypted_state_blob := blob,
              state_commitment := xorFoldCommitment blob,
              total_claimed := ob.total_claimed + withdraw_amount,
              last_update_ts := now },
            { pool with last_update_ts := now },
            [⟨Acct.collateralVault, Acct.userTokenAccount, withdraw_amount⟩])

/-- Borrow callback (`borrow_callback_handler`): requires the revealed
approval flag, checks vault liquidity, transfers the revealed amount from
the borrow vault to the user and stores the new ciphertext with a keccak256
commitment. -/
def borrow_callback_handler (keccak : List Nat → List Nat)
    (ob : UserObligation) (pool : PoolAccount) (payload : CallbackPayload)
    (borrow_vault_amount : Nat) (now : Int) :
    Except ErrorCode (UserObligation × PoolAccount × List TransferRec) :=
  if payload.user_ciphertexts.length < 6 then .error .InvalidComputationOutput
  else if (payload.user_ciphertexts.getD 4 []).getD 0 0 = 0 then
    .error .BorrowRejected
  else
    let borrow_amount := u64_from_le_bytes (payload.user_ciphertexts.getD 5 [])
    if borrow_amount = 0 then .error .InvalidBorrowAmount
    else if borrow_vault_amount < borrow_amount then .error .InsufficientLiquidity
    else if U128 ≤ ob.state_nonce + 1 then .error .MathOverflow
    else
      let blob := flattenCiphertexts (payload.user_ciphertexts.take 4)
      .ok
        ({ ob with
            state_nonce := ob.state_nonce + 1,
            encrypted_state_blob := blob,
            state_commitment := keccak blob,
            last_update_ts := now },
          { pool with last_update_ts := now },
          [⟨Acct.borrowVault, Acct.userBorrowAccount, borrow_amount⟩])

/-- Repay callback (`repay_callback_handler`): requires the revealed success
flag and stores the new user and pool ciphertexts with keccak256
commitments; the repayment tokens were escrowed in the submit phase, so no
transfer happens here. -/
def repay_callback_handler (keccak : List Nat → List Nat)
    (ob : UserObligation) (pool : PoolAccount) (payload : CallbackPayload)
    (now : Int) :
    Except ErrorCode (UserObligation × PoolAccount × List TransferRec) :=
  if payload.user_ciphertexts.length < 5 then .error .InvalidComputationOutput
  else if (payload.user_ciphertexts.getD 4 []).getD 0 0 = 0 then
    .error .InvalidBorrowAmount
  else if U128 ≤ ob.state_nonce + 1 then .error .MathOverflow
  else
    let blob := flattenCiphertexts (payload.user_ciphertexts.take 4)
    if payload.pool_ciphertexts.length = 0 then .error .InvalidComputationOutput
    else
      let pool_blob := flattenCiphertexts (payload.pool_ciphertexts.take 4)
      .ok
        ({ ob with
            state_nonce := ob.state_nonce + 1,
            encrypted_state_blob := blob,
            state_commitment := keccak blob,
            last_update_ts := now },
          { pool with
              encrypted_pool_state := pool_blob,
              pool_state_commitment := keccak pool_blob,
              pool_state_initialized := true,
              last_update_ts := now },
          [])

/-- Liquidate callback (`liquidate_callback_handler`): on a revealed
`liquidated = true` flag it seizes the revealed collateral for the
liquidator and stores the new ciphertexts; on a false flag it refunds the
liquidator's escrowed repay amount and performs no state mutation.  The
source's `if is_liquidatable` is modelled with the branches swapped (`= 0`
selects the refund branch). -/
def liquidate_callback_handler (keccak : List Nat → List Nat)
    (ob : UserObligation) (pool : PoolAccount) (payload : CallbackPayload)
    (collateral_vault_amount borrow_vault_amount : Nat) (now : Int) :
    Except ErrorCode (UserObligation × PoolAccount × List TransferRec) :=
  if payload.user_ciphertexts.length < 7 then .error .InvalidComputationOutput
  else
    let repay_amount := u64_from_le_bytes (payload.user_ciphertexts.getD 5 [])
    let collateral_seized := u64_from_le_bytes (payload.user_ciphertexts.getD 6 [])
    if (payload.user_ciphertexts.getD 4 []).getD 0 0 = 0 then
      if repay_amount = 0 then .ok (ob, pool, [])
      else if borrow_vault_amount < repay_amount then .error .TokenTransferFailed
      else
        .ok (ob, pool,
          [⟨Acct.borrowVault, Acct.liquidatorBorrowAccount, repay_amount⟩])
    else
      if repay_amount = 0 then .error .InvalidBorrowAmount
      else if collateral_seized = 0 then .error .InvalidWithdrawAmount
      else if collateral_vault_amount < collateral_seized then
        .error .InsufficientLiquidity
      else if U128 ≤ ob.state_nonce + 1 then .error .MathOverflow
      else
        let blob := flattenCiphertexts (payload.user_ciphertexts.take 4)
        if payload.pool_ciphertexts.length = 0 then
          .error .InvalidComputationOutput
        else
          let pool_blob := flattenCiphertexts (payload.pool_ciphertexts.take 4)
          .ok
            ({ ob with
                state_nonce := ob.state_nonce + 1,
                encrypted_state_blob := blob,
                state_commitment := keccak blob,
                last_update_ts := now },
              { pool with
                  encrypted_pool_state := pool_blob,
                  pool_state_commitment := keccak pool_blob,
                  pool_state_initialized := true,
                  last_update_ts := now },
              [⟨Acct.collateralVault, Acct.liquidatorCollateralAccount,
                collateral_seized⟩])

/-- Interest callback (`update_interest_callback_handler`): stores the new
user and pool ciphertexts with keccak256 commitments; no transfer and no
success-flag check. -/
def update_interest_callback_handler (keccak : List Nat → List Nat)
    (ob : UserObligation) (pool : PoolAccount) (payload : CallbackPayload)
    (now : Int) :
    Except ErrorCode (UserObligation × PoolAccount × List TransferRec) :=
  if payload.user_ciphertexts.length < 5 then .error .InvalidComputationOutput
  else if U128 ≤ ob.state_nonce + 1 then .error .MathOverflow
  else
    let blob := flattenCiphertexts (payload.user_ciphertexts.take 4)
    if payload.pool_ciphertexts.length = 0 then .error .InvalidComputationOutput
    else
      let pool_blob := flattenCiphertexts (payload.pool_ciphertexts.take 4)
      .ok
        ({ ob with
            state_nonce := ob.state_nonce + 1,
            encrypted_state_blob := blob,
            state_commitment := keccak blob,
            last_update_ts := now },
          { pool with
              encrypted_pool_state := pool_blob,
              pool_state_commitment := keccak pool_blob,
              pool_state_initialized := true,
              last_update_ts := now },
          [])

/-! Helper lemmas about the wrap-around subtraction. -/

theorem u128_sub_eq_sub {a b : Nat} (hba : b ≤ a) (ha : a < U128) :
    u128_sub a b = a - b := by
  unfold u128_sub
  have hb : b ≤ U128 := le_trans hba (le_of_lt ha)
  have h1 : a + (U128 - b) = (a - b) + U128 := by omega
  rw [h1, Nat.add_mod_right, Nat.mod_eq_of_lt (by omega)]

theorem u128_sub_zero {a : Nat} (ha : a < U128) : u128_sub a 0 = a := by
  rw [u128_sub_eq_sub (Nat.zero_le a) ha]; omega

theorem u128_sub_le {a b : Nat} (hba : b ≤ a) (ha : a < U128) :
    u128_sub a b ≤ a := by
  rw [u128_sub_eq_sub hba ha]; omega

theorem b2n_mul_le (f : Bool) (x : Nat) : b2n f * x ≤ x := by
  cases f <;> simp [b2n]

/-- C1: the confidential borrow circuit approves exactly when the
cross-multiplied collateralisation inequality
`collateral_value * ltv_bps ≥ proposed_borrow * borrow_price * 10000` holds
and the pool has enough available liquidity; on rejection the user borrow
and the pool totals are returned unchanged. -/
theorem C1_borrow_approved_iff (borrow_amount : Nat) (u : UserState)
    (p : PoolState) (collateral_price borrow_price ltv_bps : Nat)
    (hp : p.available_borrow_liquidity < U128) :
    (((compute_confidential_borrow borrow_amount u p
          collateral_price borrow_price ltv_bps).1.approved = true) ↔
      ((u.borrow_amount + borrow_amount) * borrow_price * 10000 ≤
          u.deposit_amount * collateral_price * ltv_bps ∧
        borrow_amount ≤ p.available_borrow_liquidity)) ∧
    ((compute_confidential_borrow borrow_amount u p
          collateral_price borrow_price ltv_bps).1.approved = false →
      ((compute_confidential_borrow borrow_amount u p
          collateral_price borrow_price ltv_bps).1.new_user_state.borrow_amount
          = u.borrow_amount ∧
        (compute_confidential_borrow borrow_amount u p
          collateral_price borrow_price ltv_bps).2.total_borrows
          = p.total_borrows ∧
        (compute_confidential_borrow borrow_amount u p
          collateral_price borrow_price ltv_bps).2.available_borrow_liquidity
          = p.available_borrow_liquidity)) := by
  constructor
  · simp only [compute_confidential_borrow, Bool.and_eq_true, decide_eq_true_eq]
    rw [Nat.le_div_iff_mul_le (by norm_num : (0 : Nat) < 10000)]
  · intro h
    simp only [compute_confidential_borrow] at h ⊢
    rw [h]
    simp [b2n, u128_sub_zero hp]

/-- C1 witness: a concrete approved invocation. -/
theorem C1_borrow_approved_iff_witness :
    (⟨0, 0, 0, 1000⟩ : PoolState).available_borrow_liquidity < U128 ∧
    ((compute_confidential_borrow 50 ⟨100, 0, 0, 0⟩ ⟨0, 0, 0, 1000⟩
        10 1 8000).1.approved = true ↔
      ((0 + 50) * 1 * 10000 ≤ 100 * 10 * 8000 ∧ 50 ≤ 1000)) :=
  ⟨by decide,
    (C1_borrow_approved_iff 50 ⟨100, 0, 0, 0⟩ ⟨0, 0, 0, 1000⟩ 10 1 8000
      (by decide)).1⟩

/-- C2: the confidential liquidate circuit reveals `liquidated = true` exactly
when the debt is positive and `collateral_value * threshold < debt_value *
10000`; the seized collateral equals the bonus-scaled conversion of the
actual repayment capped at the deposit, hence never exceeds the deposit. -/
theorem C2_liquidate_flag_and_seizure (repay_amount : Nat) (u : UserState)
    (p : PoolState) (collateral_price borrow_price : Nat)
    (liquidation_threshold liquidation_bonus : Nat)
    (hd : u.deposit_amount < U128) :
    (((compute_confidential_liquidate repay_amount u p collateral_price
          borrow_price liquidation_threshold liquidation_bonus).1.liquidated
        = true) ↔
      (0 < u.borrow_amount + u.accrued_interest ∧
        u.deposit_amount * collateral_price * liquidation_threshold <
          (u.borrow_amount + u.accrued_interest) * borrow_price * 10000)) ∧
    (liquidate_seized repay_amount u collateral_price borrow_price
        liquidation_threshold liquidation_bonus =
      min
        (min
            (b2n (compute_confidential_liquidate repay_amount u p
              collateral_price borrow_price liquidation_threshold
              liquidation_bonus).1.liquidated * repay_amount)
            (u.borrow_amount + u.accrued_interest) * borrow_price /
          max collateral_price 1 * (10000 + liquidation_bonus) / 10000)
        u.deposit_amount) ∧
    (liquidate_seized repay_amount u collateral_price borrow_price
        liquidation_threshold liquidation_bonus ≤ u.deposit_amount) ∧
    ((compute_confidential_liquidate repay_amount u p collateral_price
        borrow_price liquidation_threshold
        liquidation_bonus).1.new_user_state.deposit_amount =
      u.deposit_amount -
        liquidate_seized repay_amount u collateral_price borrow_price
          liquidation_threshold liquidation_bonus) := by
  refine ⟨?_, ?_, ?_, ?_⟩
  · simp [compute_confidential_liquidate, Bool.and_eq_true, decide_eq_true_eq]
  · simp only [compute_confidential_liquidate, liquidate_seized]
  · simp only [liquidate_seized]
    exact min_le_right _ _
  · simp only [compute_confidential_liquidate]
    exact u128_sub_eq_sub
      (by simp only [liquidate_seized]; exact min_le_right _ _) hd

/-- C2 witness: a concrete under-collateralised position is liquidated and the
seizure is capped at the deposit. -/
theorem C2_liquidate_flag_and_seizure_witness :
    (⟨100, 0, 0, 0⟩ : UserState).deposit_amount < U128 ∧
    liquidate_seized 1000 ⟨100, 0, 0, 0⟩ 1 1 8000 500 ≤
      (⟨100, 0, 0, 0⟩ : UserState).deposit_amount :=
  ⟨by decide,
    (C2_liquidate_flag_and_seizure 1000 ⟨100, 0, 0, 0⟩ ⟨0, 0, 0, 0⟩ 1 1 8000 500
      (by decide)).2.2.1⟩

/-- C3 counterexample: the withdraw circuit debits `pool.total_deposits` by an
amount capped only at the user's own deposit, so with
`pool.total_deposits = 0` and a user deposit of `5`, withdrawing `5` wraps the
pool total-deposits aggregate around to `2^128 - 5`. -/
theorem C3_counterexample :
    ¬ ((compute_confidential_withdraw 5 ⟨5, 0, 0, 0⟩ ⟨0, 0, 0, 0⟩ 1 1
          5000).2.total_deposits ≤
        (⟨0, 0, 0, 0⟩ : PoolState).total_deposits) ∧
    (compute_confidential_withdraw 5 ⟨5, 0, 0, 0⟩ ⟨0, 0, 0, 0⟩ 1 1
        5000).2.total_deposits = 2 ^ 128 - 5 ∧
    (compute_confidential_withdraw 5 ⟨5, 0, 0, 0⟩ ⟨0, 0, 0, 0⟩ 1 1
        5000).1.approved = true := by
  refine ⟨?_, by decide, by decide⟩
  intro h
  revert h
  decide

/-- C3 (amended): all user-level subtractions and the pool `total_borrows`
and `available_borrow_liquidity` debits are capped (or guarded) by the
operand they are subtracted from and never wrap; only the
`total_deposits` debits of withdraw/liquidate are capped merely by the
user's deposit and may wrap (see the counterexample). -/
theorem C3_amended_capped_subtractions :
    (∀ amt (u : UserState) (p : PoolState) cp bp ltv,
      p.available_borrow_liquidity < U128 →
      (compute_confidential_borrow amt u p cp bp ltv).2.available_borrow_liquidity
        ≤ p.available_borrow_liquidity) ∧
    (∀ amt (u : UserState) (p : PoolState) cp bp ltv,
      u.deposit_amount < U128 →
      (compute_confidential_withdraw amt u p cp bp
          ltv).1.new_user_state.deposit_amount ≤ u.deposit_amount) ∧
    (∀ amt (u : UserState) (p : PoolState),
      u.accrued_interest < U128 → u.borrow_amount < U128 →
      p.total_borrows < U128 →
      ((compute_confidential_repay amt u p).1.new_user_state.accrued_interest
          ≤ u.accrued_interest ∧
        (compute_confidential_repay amt u p).1.new_user_state.borrow_amount
          ≤ u.borrow_amount ∧
        (compute_confidential_repay amt u p).2.total_borrows
          ≤ p.total_borrows)) ∧
    (∀ r (u : UserState) (p : PoolState) cp bp thr bon,
      u.deposit_amount < U128 → u.accrued_interest < U128 →
      u.borrow_amount < U128 → p.total_borrows < U128 →
      ((compute_confidential_liquidate r u p cp bp thr
            bon).1.new_user_state.deposit_amount ≤ u.deposit_amount ∧
        (compute_confidential_liquidate r u p cp bp thr
            bon).1.new_user_state.accrued_interest ≤ u.accrued_interest ∧
        (compute_confidential_liquidate r u p cp bp thr
            bon).1.new_user_state.borrow_amount ≤ u.borrow_amount ∧
        (compute_confidential_liquidate r u p cp bp thr bon).2.total_borrows
          ≤ p.total_borrows)) := by
  refine ⟨?_, ?_, ?_, ?_⟩
  · intro amt u p cp bp ltv hp
    simp only [compute_confidential_borrow]
    refine u128_sub_le ?_ hp
    rcases hx : decide (amt ≤ p.available_borrow_liquidity) with _ | _
    · simp [b2n]
    · have hle := of_decide_eq_true hx
      calc b2n (_ && true) * amt ≤ amt := b2n_mul_le _ _
        _ ≤ p.available_borrow_liquidity := hle
  · intro amt u p cp bp ltv hd
    simp only [compute_confidential_withdraw]
    exact u128_sub_le
      (le_trans (b2n_mul_le _ _) (min_le_right _ _)) hd
  · intro amt u p hi hb hp
    simp only [compute_confidential_repay]
    exact ⟨u128_sub_le (min_le_right _ _) hi,
      u128_sub_le (min_le_right _ _) hb,
      u128_sub_le (min_le_right _ _) hp⟩
  · intro r u p cp bp thr bon hd hi hb hp
    simp only [compute_confidential_liquidate]
    refine ⟨?_, u128_sub_le (min_le_right _ _) hi,
      u128_sub_le (min_le_right _ _) hb,
      u128_sub_le (min_le_right _ _) hp⟩
    exact u128_sub_le
      (by simp only [liquidate_seized]; exact min_le_right _ _) hd

/-- C3 amended witness: the repay-circuit subtractions at a concrete state. -/
theorem C3_amended_capped_subtractions_witness :
    (⟨0, 7, 3, 0⟩ : UserState).accrued_interest < U128 ∧
    (compute_confidential_repay 10 ⟨0, 7, 3, 0⟩
        ⟨0, 7, 0, 0⟩).1.new_user_state.accrued_interest ≤ 3 :=
  ⟨by decide,
    (C3_amended_capped_subtractions.2.2.1 10 ⟨0, 7, 3, 0⟩ ⟨0, 7, 0, 0⟩
      (by decide) (by decide) (by decide)).1⟩

/-- C5: the confidential repay circuit applies `min(amount, debt)`, pays
interest first and principal with the remainder, each capped at the
outstanding amount, and neither resulting balance underflows. -/
theorem C5_repay_priority (repay_amount : Nat) (u : UserState) (p : PoolState)
    (hi : u.accrued_interest < U128) (hb : u.borrow_amount < U128) :
    ((compute_confidential_repay repay_amount u p).1.new_user_state.accrued_interest
        = u.accrued_interest -
            min (min repay_amount (u.borrow_amount + u.accrued_interest))
              u.accrued_interest) ∧
    ((compute_confidential_repay repay_amount u p).1.new_user_state.borrow_amount
        = u.borrow_amount -
            min (min repay_amount (u.borrow_amount + u.accrued_interest) -
                min (min repay_amount (u.borrow_amount + u.accrued_interest))
                  u.accrued_interest)
              u.borrow_amount) ∧
    ((compute_confidential_repay repay_amount u p).1.new_user_state.accrued_interest
        ≤ u.accrued_interest) ∧
    ((compute_confidential_repay repay_amount u p).1.new_user_state.borrow_amount
        ≤ u.borrow_amount) := by
  simp only [compute_confidential_repay]
  rw [u128_sub_eq_sub (min_le_right _ _) hi,
    u128_sub_eq_sub (min_le_right _ _) hb]
  exact ⟨rfl, rfl, by omega, by omega⟩

/-- C5 witness: repay 10 against interest 3 and principal 7 clears both. -/
theorem C5_repay_priority_witness :
    (⟨0, 7, 3, 0⟩ : UserState).accrued_interest < U128 ∧
    (compute_confidential_repay 10 ⟨0, 7, 3, 0⟩
        ⟨0, 7, 0, 0⟩).1.new_user_state.accrued_interest = 3 - min (min 10 (7 + 3)) 3 :=
  ⟨by decide,
    (C5_repay_priority 10 ⟨0, 7, 3, 0⟩ ⟨0, 7, 0, 0⟩ (by decide) (by decide)).1⟩

/-- C6: the confidential interest circuit adds
`borrow * rate_bps * elapsed / (10000 * seconds_per_year)` to both the
user's accrued interest and the pool's accumulated interest, with the
elapsed time computed from the stored `last_interest_calc_ts`; zero elapsed
time leaves the accrued interest unchanged. -/
theorem C6_interest_accrual (u : UserState) (p : PoolState) (current_ts : Int)
    (borrow_rate_bps : Nat) :
    ((compute_confidential_interest u p current_ts
        borrow_rate_bps).1.new_user_state.accrued_interest =
      u.accrued_interest +
        u.borrow_amount * borrow_rate_bps *
            (max (current_ts - u.last_interest_calc_ts) 0).toNat /
          (10000 * 31536000)) ∧
    ((compute_confidential_interest u p current_ts
        borrow_rate_bps).2.accumulated_interest =
      p.accumulated_interest +
        u.borrow_amount * borrow_rate_bps *
            (max (current_ts - u.last_interest_calc_ts) 0).toNat /
          (10000 * 31536000)) ∧
    ((compute_confidential_interest u p u.last_interest_calc_ts
        borrow_rate_bps).1.new_user_state.accrued_interest =
      u.accrued_interest) := by
  refine ⟨rfl, rfl, ?_⟩
  simp [compute_confidential_interest]

/-- C9 counterexample: with `ltv_bps = 7500`, deposit `1000` at collateral
price `100` and a borrow request of `70000` at borrow price `1` (ample pool
liquidity), the circuit approves the request instead of rejecting it:
`70000 * 10000 = 700000000 ≤ 1000 * 100 * 7500 = 750000000`. -/
theorem C9_counterexample :
    (compute_confidential_borrow 70000 ⟨1000, 0, 0, 0⟩ ⟨0, 0, 0, 1000000⟩
        100 1 7500).1.approved = true := by
  decide

/-- C9 (amended): in the boundary scenario the `70000` request is approved
(it is below the `75000` borrowing limit), a request whose debt value is
exactly `75000` ties at the `ltv_bps` threshold and is approved, and
`75001` is rejected. -/
theorem C9_amended_boundary :
    (compute_confidential_borrow 70000 ⟨1000, 0, 0, 0⟩ ⟨0, 0, 0, 1000000⟩
        100 1 7500).1.approved = true ∧
    (compute_confidential_borrow 75000 ⟨1000, 0, 0, 0⟩ ⟨0, 0, 0, 1000000⟩
        100 1 7500).1.approved = true ∧
    (compute_confidential_borrow 75001 ⟨1000, 0, 0, 0⟩ ⟨0, 0, 0, 1000000⟩
        100 1 7500).1.approved = false := by
  refine ⟨by decide, by decide, by decide⟩

/-- Wrap-around subtraction of zero from zero. -/
theorem u128_sub_zero_zero : u128_sub 0 0 = 0 := by
  unfold u128_sub U128
  simp

/-- C10: with a positive repay amount the repay circuit's success flag is
false exactly when the user's total debt is zero, in which case the user
and pool states are returned unchanged; the repay callback rejects a false
success flag with `InvalidBorrowAmount` (aborting the transaction, so no
account mutation is committed). -/
theorem C10_repay_zero_debt (repay_amount : Nat) (u : UserState) (p : PoolState)
    (ha : 0 < repay_amount) (hp : p.total_borrows < U128) :
    ((compute_confidential_repay repay_amount u p).1.success = false ↔
      u.borrow_amount + u.accrued_interest = 0) ∧
    (u.borrow_amount + u.accrued_interest = 0 →
      ((compute_confidential_repay repay_amount u p).1.new_user_state = u ∧
        (compute_confidential_repay repay_amount u p).2 = p)) ∧
    (∀ (keccak : List Nat → List Nat) (ob : UserObligation)
        (pool : PoolAccount) (payload : CallbackPayload) (now : Int),
      5 ≤ payload.user_ciphertexts.length →
      (payload.user_ciphertexts.getD 4 []).getD 0 0 = 0 →
      repay_callback_handler keccak ob pool payload now =
        .error .InvalidBorrowAmount) := by
  refine ⟨?_, ?_, ?_⟩
  · simp only [compute_confidential_repay, decide_eq_false_iff_not, Nat.not_lt,
      Nat.le_zero]
    omega
  · intro h0
    obtain ⟨ud, ub, ui, ut⟩ := u
    obtain ⟨pd, pb, pai, pal⟩ := p
    simp only [compute_confidential_repay]
    simp only at h0 hp
    have hub : ub = 0 := by omega
    have hui : ui = 0 := by omega
    subst hub; subst hui
    simp [u128_sub_zero_zero, u128_sub_zero hp]
  · intro keccak ob pool payload now h5 hflag
    simp only [repay_callback_handler]
    rw [if_neg (by omega), if_pos hflag]

/-- C10 witness: repaying 1 against an empty position fails in the circuit. -/
theorem C10_repay_zero_debt_witness :
    0 < 1 ∧
    ((compute_confidential_repay 1 ⟨0, 0, 0, 0⟩ ⟨0, 0, 0, 0⟩).1.success = false ↔
      (⟨0, 0, 0, 0⟩ : UserState).borrow_amount +
        (⟨0, 0, 0, 0⟩ : UserState).accrued_interest = 0) :=
  ⟨by decide,
    (C10_repay_zero_debt 1 ⟨0, 0, 0, 0⟩ ⟨0, 0, 0, 0⟩ (by decide) (by decide)).1⟩

/-- C4: an accepted confidential deposit credits `pool.total_deposits` by
exactly the deposited amount, and every callback that commits a state
update increments `state_nonce` by exactly 1 (the liquidate callback's
refund branch commits no update at all). -/
theorem C4_deposit_and_nonce :
    (∀ (amount : Nat) (u : UserState) (p : PoolState) (max_creditable : Nat),
      ((compute_confidential_deposit amount u p max_creditable).1.success = true ↔
        amount ≤ max_creditable) ∧
      ((compute_confidential_deposit amount u p max_creditable).1.success = true →
        (compute_confidential_deposit amount u p max_creditable).2.total_deposits
          = p.total_deposits + amount)) ∧
    (∀ (ob : UserObligation) (pool : PoolAccount) (payload : CallbackPayload)
        (bal : Nat) (now : Int) ob2 pool2 trs,
      deposit_callback_handler ob pool payload bal now = .ok (ob2, pool2, trs) →
      ob2.state_nonce = ob.state_nonce + 1) ∧
    (∀ (ob : UserObligation) (pool : PoolAccount) (payload : CallbackPayload)
        (bal : Nat) (now : Int) ob2 pool2 trs,
      withdraw_callback_handler ob pool payload bal now = .ok (ob2, pool2, trs) →
      ob2.state_nonce = ob.state_nonce + 1) ∧
    (∀ (keccak : List Nat → List Nat) (ob : UserObligation)
        (pool : PoolAccount) (payload : CallbackPayload) (bal : Nat)
        (now : Int) ob2 pool2 trs,
      borrow_callback_handler keccak ob pool payload bal now =
          .ok (ob2, pool2, trs) →
      ob2.state_nonce = ob.state_nonce + 1) ∧
    (∀ (keccak : List Nat → List Nat) (ob : UserObligation)
        (pool : PoolAccount) (payload : CallbackPayload) (now : Int)
        ob2 pool2 trs,
      repay_callback_handler keccak ob pool payload now = .ok (ob2, pool2, trs) →
      ob2.state_nonce = ob.state_nonce + 1) ∧
    (∀ (keccak : List Nat → List Nat) (ob : UserObligation)
        (pool : PoolAccount) (payload : CallbackPayload) (now : Int)
        ob2 pool2 trs,
      update_interest_callback_handler keccak ob pool payload now =
          .ok (ob2, pool2, trs) →
      ob2.state_nonce = ob.state_nonce + 1) ∧
    (∀ (keccak : List Nat → List Nat) (ob : UserObligation)
        (pool : PoolAccount) (payload : CallbackPayload) (cva bva : Nat)
        (now : Int) ob2 pool2 trs,
      liquidate_callback_handler keccak ob pool payload cva bva now =
          .ok (ob2, pool2, trs) →
      (ob2.state_nonce = ob.state_nonce + 1 ∨ ob2 = ob)) := by
  refine ⟨?_, ?_, ?_, ?_, ?_, ?_, ?_⟩
  · intro amount u p max_creditable
    constructor
    · simp [compute_confidential_deposit]
    · intro h
      simp only [compute_confidential_deposit, decide_eq_true_eq] at h ⊢
      simp [h, b2n]
  · intro ob pool payload bal now ob2 pool2 trs h
    simp only [deposit_callback_handler] at h
    repeat' split at h
    all_goals first
      | exact Except.noConfusion h
      | (simp only [Except.ok.injEq, Prod.mk.injEq] at h
         obtain ⟨h1, h2, h3⟩ := h
         subst h1
         first
           | rfl
           | exact Or.inl rfl
           | exact Or.inr rfl)
  · intro ob pool payload bal now ob2 pool2 trs h
    simp only [withdraw_callback_handler] at h
    repeat' split at h
    all_goals first
      | exact Except.noConfusion h
      | (simp only [Except.ok.injEq, Prod.mk.injEq] at h
         obtain ⟨h1, h2, h3⟩ := h
         subst h1
         first
           | rfl
           | exact Or.inl rfl
           | exact Or.inr rfl)
  · intro keccak ob pool payload bal now ob2 pool2 trs h
    simp only [borrow_callback_handler] at h
    repeat' split at h
    all_goals first
      | exact Except.noConfusion h
      | (simp only [Except.ok.injEq, Prod.mk.injEq] at h
         obtain ⟨h1, h2, h3⟩ := h
         subst h1
         first
           | rfl
           | exact Or.inl rfl
           | exact Or.inr rfl)
  · intro keccak ob pool payload now ob2 pool2 trs h
    simp only [repay_callback_handler] at h
    repeat' split at h
    all_goals first
      | exact Except.noConfusion h
      | (simp only [Except.ok.injEq, Prod.mk.injEq] at h
         obtain ⟨h1, h2, h3⟩ := h
         subst h1
         first
           | rfl
           | exact Or.inl rfl
           | exact Or.inr rfl)
  · intro keccak ob pool payload now ob2 pool2 trs h
    simp only [update_interest_callback_handler] at h
    repeat' split at h
    all_goals first
      | exact Except.noConfusion h
      | (simp only [Except.ok.injEq, Prod.mk.injEq] at h
         obtain ⟨h1, h2, h3⟩ := h
         subst h1
         first
           | rfl
           | exact Or.inl rfl
           | exact Or.inr rfl)
  · intro keccak ob pool payload cva bva now ob2 pool2 trs h
    simp only [liquidate_callback_handler] at h
    repeat' split at h
    all_goals first
      | exact Except.noConfusion h
      | (simp only [Except.ok.injEq, Prod.mk.injEq] at h
         obtain ⟨h1, h2, h3⟩ := h
         subst h1
         first
           | rfl
           | exact Or.inl rfl
           | exact Or.inr rfl)

/-- C4 witness: a concrete accepted repay callback increments the nonce from
0 to 1. -/
theorem C4_deposit_and_nonce_witness :
    (⟨1, [], [], 0, 0, 0⟩ : UserObligation).state_nonce =
      (⟨0, [], [], 0, 0, 0⟩ : UserObligation).state_nonce + 1 :=
  C4_deposit_and_nonce.2.2.2.2.1 (fun _ => []) ⟨0, [], [], 0, 0, 0⟩
    ⟨[], [], false, 0⟩ ⟨[[], [], [], [], [1]], [[]]⟩ 0
    ⟨1, [], [], 0, 0, 0⟩ ⟨[], [], true, 0⟩ [] (by rfl)

/-- C7: a verified liquidation payload whose revealed flag is false leads to
no obligation or pool mutation, a full refund of the revealed escrowed
repay amount from the borrow vault to the liquidator, and an `Ok` result. -/
theorem C7_liquidation_refund (keccak : List Nat → List Nat)
    (ob : UserObligation) (pool : PoolAccount) (payload : CallbackPayload)
    (collateral_vault_amount borrow_vault_amount : Nat) (now : Int)
    (harity : 7 ≤ payload.user_ciphertexts.length)
    (hflag : (payload.user_ciphertexts.getD 4 []).getD 0 0 = 0)
    (hvault : u64_from_le_bytes (payload.user_ciphertexts.getD 5 []) ≤
      borrow_vault_amount) :
    (liquidate_callback_handler keccak ob pool payload collateral_vault_amount
        borrow_vault_amount now =
      .ok (ob, pool,
        if 0 < u64_from_le_bytes (payload.user_ciphertexts.getD 5 []) then
          [⟨Acct.borrowVault, Acct.liquidatorBorrowAccount,
            u64_from_le_bytes (payload.user_ciphertexts.getD 5 [])⟩]
        else [])) ∧
    (((if 0 < u64_from_le_bytes (payload.user_ciphertexts.getD 5 []) then
          [(⟨Acct.borrowVault, Acct.liquidatorBorrowAccount,
            u64_from_le_bytes (payload.user_ciphertexts.getD 5 [])⟩ :
              TransferRec)]
        else []).map TransferRec.amount).sum =
      u64_from_le_bytes (payload.user_ciphertexts.getD 5 [])) := by
  constructor
  · simp only [liquidate_callback_handler]
    rw [if_neg (by omega), if_pos hflag]
    by_cases hr : u64_from_le_bytes (payload.user_ciphertexts.getD 5 []) = 0
    · rw [if_pos hr, hr, if_neg (Nat.lt_irrefl 0)]
    · rw [if_neg hr, if_neg (by omega), if_pos (Nat.pos_of_ne_zero hr)]
  · by_cases hr : u64_from_le_bytes (payload.user_ciphertexts.getD 5 []) = 0
    · rw [hr, if_neg (Nat.lt_irrefl 0)]
      rfl
    · rw [if_pos (Nat.pos_of_ne_zero hr)]
      simp

/-- C7 witness: a concrete not-liquidatable payload with zero escrow is a
no-op refund. -/
theorem C7_liquidation_refund_witness :
    liquidate_callback_handler (fun _ => []) ⟨0, [], [], 0, 0, 0⟩
        ⟨[], [], false, 0⟩ ⟨[[], [], [], [], [], [], []], []⟩ 0 0 0 =
      .ok (⟨0, [], [], 0, 0, 0⟩, ⟨[], [], false, 0⟩,
        if 0 < u64_from_le_bytes
            ((⟨[[], [], [], [], [], [], []], []⟩ :
                CallbackPayload).user_ciphertexts.getD 5 []) then
          [⟨Acct.borrowVault, Acct.liquidatorBorrowAccount,
            u64_from_le_bytes
              ((⟨[[], [], [], [], [], [], []], []⟩ :
                  CallbackPayload).user_ciphertexts.getD 5 [])⟩]
        else []) :=
  (C7_liquidation_refund (fun _ => []) ⟨0, [], [], 0, 0, 0⟩ ⟨[], [], false, 0⟩
    ⟨[[], [], [], [], [], [], []], []⟩ 0 0 0 (by decide) (by decide)
    (by decide)).1

/-- C8 (amended): every callback recomputes the stored commitment from the
newly stored ciphertext bytes (no commitment is read from the payload);
the borrow, repay, liquidate and interest callbacks use keccak256 while
the deposit and withdraw callbacks use a 32-byte XOR fold, which is not
collision resistant (see the counterexample). -/
theorem C8_amended_commitments :
    (∀ (ob : UserObligation) (pool : PoolAccount) (payload : CallbackPayload)
        (bal : Nat) (now : Int) ob2 pool2 trs,
      deposit_callback_handler ob pool payload bal now = .ok (ob2, pool2, trs) →
      ob2.state_commitment = xorFoldCommitment ob2.encrypted_state_blob) ∧
    (∀ (ob : UserObligation) (pool : PoolAccount) (payload : CallbackPayload)
        (bal : Nat) (now : Int) ob2 pool2 trs,
      withdraw_callback_handler ob pool payload bal now = .ok (ob2, pool2, trs) →
      ob2.state_commitment = xorFoldCommitment ob2.encrypted_state_blob) ∧
    (∀ (keccak : List Nat → List Nat) (ob : UserObligation)
        (pool : PoolAccount) (payload : CallbackPayload) (bal : Nat)
        (now : Int) ob2 pool2 trs,
      borrow_callback_handler keccak ob pool payload bal now =
          .ok (ob2, pool2, trs) →
      ob2.state_commitment = keccak ob2.encrypted_state_blob) ∧
    (∀ (keccak : List Nat → List Nat) (ob : UserObligation)
        (pool : PoolAccount) (payload : CallbackPayload) (now : Int)
        ob2 pool2 trs,
      repay_callback_handler keccak ob pool payload now = .ok (ob2, pool2, trs) →
      (ob2.state_commitment = keccak ob2.encrypted_state_blob ∧
        pool2.pool_state_commitment = keccak pool2.encrypted_pool_state)) ∧
    (∀ (keccak : List Nat → List Nat) (ob : UserObligation)
        (pool : PoolAccount) (payload : CallbackPayload) (now : Int)
        ob2 pool2 trs,
      update_interest_callback_handler keccak ob pool payload now =
          .ok (ob2, pool2, trs) →
      (ob2.state_commitment = keccak ob2.encrypted_state_blob ∧
        pool2.pool_state_commitment = keccak pool2.encrypted_pool_state)) ∧
    (∀ (keccak : List Nat → List Nat) (ob : UserObligation)
        (pool : PoolAccount) (payload : CallbackPayload) (cva bva : Nat)
        (now : Int) ob2 pool2 trs,
      liquidate_callback_handler keccak ob pool payload cva bva now =
          .ok (ob2, pool2, trs) →
      ((ob2 = ob ∧ pool2 = pool) ∨
        (ob2.state_commitment = keccak ob2.encrypted_state_blob ∧
          pool2.pool_state_commitment = keccak pool2.encrypted_pool_state))) := by
  refine ⟨?_, ?_, ?_, ?_, ?_, ?_⟩
  · intro ob pool payload bal now ob2 pool2 trs h
    simp only [deposit_callback_handler] at h
    repeat' split at h
    all_goals first
      | exact Except.noConfusion h
      | (simp only [Except.ok.injEq, Prod.mk.injEq] at h
         obtain ⟨h1, h2, h3⟩ := h
         subst h1
         subst h2
         first
           | rfl
           | exact ⟨rfl, rfl⟩
           | exact Or.inl ⟨rfl, rfl⟩
           | exact Or.inr ⟨rfl, rfl⟩)
  · intro ob pool payload bal now ob2 pool2 trs h
    simp only [withdraw_callback_handler] at h
    repeat' split at h
    all_goals first
      | exact Except.noConfusion h
      | (simp only [Except.ok.injEq, Prod.mk.injEq] at h
         obtain ⟨h1, h2, h3⟩ := h
         subst h1
         subst h2
         first
           | rfl
           | exact ⟨rfl, rfl⟩
           | exact Or.inl ⟨rfl, rfl⟩
           | exact Or.inr ⟨rfl, rfl⟩)
  · intro keccak ob pool payload bal now ob2 pool2 trs h
    simp only [borrow_callback_handler] at h
    repeat' split at h
    all_goals first
      | exact Except.noConfusion h
      | (simp only [Except.ok.injEq, Prod.mk.injEq] at h
         obtain ⟨h1, h2, h3⟩ := h
         subst h1
         subst h2
         first
           | rfl
           | exact ⟨rfl, rfl⟩
           | exact Or.inl ⟨rfl, rfl⟩
           | exact Or.inr ⟨rfl, rfl⟩)
  · intro keccak ob pool payload now ob2 pool2 trs h
    simp only [repay_callback_handler] at h
    repeat' split at h
    all_goals first
      | exact Except.noConfusion h
      | (simp only [Except.ok.injEq, Prod.mk.injEq] at h
         obtain ⟨h1, h2, h3⟩ := h
         subst h1
         subst h2
         first
           | rfl
           | exact ⟨rfl, rfl⟩
           | exact Or.inl ⟨rfl, rfl⟩
           | exact Or.inr ⟨rfl, rfl⟩)
  · intro keccak ob pool payload now ob2 pool2 trs h
    simp only [update_interest_callback_handler] at h
    repeat' split at h
    all_goals first
      | exact Except.noConfusion h
      | (simp only [Except.ok.injEq, Prod.mk.injEq] at h
         obtain ⟨h1, h2, h3⟩ := h
         subst h1
         subst h2
         first
           | rfl
           | exact ⟨rfl, rfl⟩
           | exact Or.inl ⟨rfl, rfl⟩
           | exact Or.inr ⟨rfl, rfl⟩)
  · intro keccak ob pool payload cva bva now ob2 pool2 trs h
    simp only [liquidate_callback_handler] at h
    repeat' split at h
    all_goals first
      | exact Except.noConfusion h
      | (simp only [Except.ok.injEq, Prod.mk.injEq] at h
         obtain ⟨h1, h2, h3⟩ := h
         subst h1
         subst h2
         first
           | rfl
           | exact ⟨rfl, rfl⟩
           | exact Or.inl ⟨rfl, rfl⟩
           | exact Or.inr ⟨rfl, rfl⟩)

/-- C8 amended witness: a concrete accepted repay callback stores
keccak-recomputed commitments. -/
theorem C8_amended_commitments_witness :
    (⟨1, [], [], 0, 0, 0⟩ : UserObligation).state_commitment =
      (fun _ => ([] : List Nat)) (⟨1, [], [], 0, 0, 0⟩ :
        UserObligation).encrypted_state_blob ∧
    (⟨[], [], true, 0⟩ : PoolAccount).pool_state_commitment =
      (fun _ => ([] : List Nat)) (⟨[], [], true, 0⟩ :
        PoolAccount).encrypted_pool_state :=
  C8_amended_commitments.2.2.2.1 (fun _ => []) ⟨0, [], [], 0, 0, 0⟩
    ⟨[], [], false, 0⟩ ⟨[[], [], [], [], [1]], [[]]⟩ 0
    ⟨1, [], [], 0, 0, 0⟩ ⟨[], [], true, 0⟩ [] (by rfl)

/-- C8 counterexample: the deposit callback's XOR-fold commitment is not
collision resistant: two accepted deposit callbacks store different
ciphertext blobs yet identical commitments (bytes 0 and 32 of the second
blob XOR to the single byte of the first). -/
theorem C8_counterexample :
    (((deposit_callback_handler ⟨0, [], [], 0, 0, 0⟩ ⟨[], [], false, 0⟩
          ⟨[[1], [], [], [], [7]], []⟩ 10 0).map
        (fun r => r.1.encrypted_state_blob)).toOption ≠
      ((deposit_callback_handler ⟨0, [], [], 0, 0, 0⟩ ⟨[], [], false, 0⟩
          ⟨[[3], List.replicate 31 0 ++ [2], [], [], [7]], []⟩ 10 0).map
        (fun r => r.1.encrypted_state_blob)).toOption) ∧
    (((deposit_callback_handler ⟨0, [], [], 0, 0, 0⟩ ⟨[], [], false, 0⟩
          ⟨[[1], [], [], [], [7]], []⟩ 10 0).map
        (fun r => r.1.state_commitment)).toOption =
      ((deposit_callback_handler ⟨0, [], [], 0, 0, 0⟩ ⟨[], [], false, 0⟩
          ⟨[[3], List.replicate 31 0 ++ [2], [], [], [7]], []⟩ 10 0).map
        (fun r => r.1.state_commitment)).toOption) ∧
    (((deposit_callback_handler ⟨0, [], [], 0, 0, 0⟩ ⟨[], [], false, 0⟩
          ⟨[[1], [], [], [], [7]], []⟩ 10 0).map (fun _ => true)).toOption =
      some true) := by
  refine ⟨by decide, by decide, by decide⟩

end ShadowLend
